import Mathlib

/-!
Shallow embedding of the YouTube Analyzer extension core
(`libs/api-client.js`, `libs/data-processor.js`, `background/background.js`)
and proofs about the claims of its specification.

Modelling conventions:
* JavaScript objects become Lean structures; a field that may be `undefined`
  or `null` becomes an `Option`.
* Machine time (`Date.now()`) is a natural number of milliseconds for cache
  arithmetic and an integer for date differences.
* Fallible code (thrown exceptions) is `Except String`, the payload being the
  thrown error message.
* JavaScript floating point arithmetic on ratios is modelled with `ℚ`;
  `x.toFixed(2)` followed by `parseFloat` is modelled by rounding to two
  decimal places.  Division by zero is 0 in `ℚ` where JavaScript produces
  NaN; at every place where this matters the surrounding theorem statements
  only use the fact that the result is not a correct percentage, which holds
  for both NaN and 0.
-/

/-- Statistics object of a video resource; the source applies
`parseInt(stats.x) || 0`, so the model carries the resulting naturals. -/
structure VideoStatistics where
  viewCount : Nat
  likeCount : Nat
  commentCount : Nat
  dislikeCount : Nat
deriving Repr, DecidableEq

/-- Snippet object of a video resource; `publishedAt` is the parsed
timestamp in milliseconds. -/
structure VideoSnippet where
  publishedAt : Int
  title : String
  description : String
  tags : Option (List String)
deriving Repr, DecidableEq

/-- Statistics object of a channel resource. -/
structure ChannelStatistics where
  subscriberCount : Nat
  viewCount : Nat
  videoCount : Nat
deriving Repr, DecidableEq

/-- Snippet object of a channel resource. -/
structure ChannelSnippet where
  publishedAt : Int
deriving Repr, DecidableEq

/-- A video item as consumed by `calculateVideoKPIs`; both component objects
may be absent (JavaScript `undefined`). -/
structure VideoData where
  statistics : Option VideoStatistics
  snippet : Option VideoSnippet
deriving Repr, DecidableEq

/-- A channel item as consumed by `calculateChannelKPIs`. -/
structure ChannelData where
  statistics : Option ChannelStatistics
  snippet : Option ChannelSnippet
deriving Repr, DecidableEq

/-- Innermost snippet of a top level comment in a commentThreads item. -/
structure TLCSnippet where
  authorDisplayName : String
  textDisplay : String
  likeCount : Nat
  publishedAt : String
deriving Repr, DecidableEq

/-- The topLevelComment object of a commentThreads item. -/
structure TopLevelComment where
  snippet : TLCSnippet
deriving Repr, DecidableEq

/-- Snippet of a commentThreads item. -/
structure CommentThreadSnippet where
  topLevelComment : TopLevelComment
deriving Repr, DecidableEq

/-- A commentThreads item. -/
structure CommentThreadItem where
  snippet : CommentThreadSnippet
deriving Repr, DecidableEq

/-- The id object of a search item: exactly one of the three fields is
populated by the upstream API depending on the result type. -/
structure SearchId where
  videoId : Option String
  channelId : Option String
  playlistId : Option String
deriving Repr, DecidableEq

/-- Snippet of a search item; `thumbnailMediumUrl` models
`snippet.thumbnails.medium?.url`. -/
structure SearchSnippet where
  title : String
  description : String
  thumbnailMediumUrl : Option String
  channelTitle : String
  publishedAt : String
deriving Repr, DecidableEq

/-- A search item. -/
structure SearchItem where
  id : SearchId
  snippet : SearchSnippet
deriving Repr, DecidableEq

/-- An element of the `items` array of an upstream response.  The upstream
JSON is untyped; the model tags each possible shape. -/
inductive Item where
  | video (v : VideoData)
  | channel (c : ChannelData)
  | commentThread (t : CommentThreadItem)
  | search (s : SearchItem)
deriving Repr, DecidableEq

/-- A parsed JSON body of an upstream response: `items` models `data.items`
(absent when the key is missing), `errorMessage` models
`data.error.message` on error bodies. -/
structure ApiData where
  items : Option (List Item)
  errorMessage : Option String
deriving Repr, DecidableEq

/-- One entry of the in-memory response cache: `{ data, timestamp }`. -/
structure CacheEntry where
  data : ApiData
  timestamp : Nat
deriving Repr, DecidableEq

/-- The cache object `this.cache`, a map from URL strings to entries. -/
def Cache := String → Option CacheEntry

/-- The empty cache `{}` (also the result of `clearCache`). -/
def emptyCache : Cache := fun _ => none

/-- Cache read of `request` (api-client.js line 67): the entry is used only
when caching is enabled and `Date.now() - entry.timestamp < cacheTimeMs`. -/
def cacheLookup (cache : Cache) (cacheTimeMs now : Nat) (key : String) :
    Option ApiData :=
  if 0 < cacheTimeMs then
    match cache key with
    | some entry => if now - entry.timestamp < cacheTimeMs then some entry.data else none
    | none => none
  else none

/-- Cache write of `request` (api-client.js lines 88-90): stores
`{ data, timestamp: Date.now() }` only when caching is enabled. -/
def cacheStore (cache : Cache) (cacheTimeMs now : Nat) (key : String)
    (payload : ApiData) : Cache :=
  if 0 < cacheTimeMs then
    fun k => if k = key then some ⟨payload, now⟩ else cache k
  else cache

/-- The constant `BASE_URL` of the api client. -/
def BASE_URL : String := "https://www.googleapis.com/youtube/v3"

/-- Serialisation of the parameter list, modelling
`new URLSearchParams(params).toString()` (URL escaping elided). -/
def queryString (params : List (String × String)) : String :=
  String.intercalate "&" (params.map fun p => p.1 ++ "=" ++ p.2)

/-- The URL built by `request` before the key is appended
(api-client.js line 58). -/
def requestUrl (endpoint : String) (params : List (String × String)) : String :=
  BASE_URL ++ "/" ++ endpoint ++ "?" ++ queryString params

/-- The cache key of `request` (api-client.js line 61): it is the URL
without the API key. -/
def requestCacheKey (endpoint : String) (params : List (String × String)) :
    String :=
  requestUrl endpoint params

/-- The outbound URL of `request` (api-client.js line 73): the credential is
appended here and only here. -/
def requestFullUrl (endpoint : String) (params : List (String × String))
    (apiKey : String) : String :=
  requestUrl endpoint params ++ "&key=" ++ apiKey

/-- Body of an HTTP response as seen through `response.json()`: either the
parse throws (`unparseable` carries the thrown message) or it yields a
parsed value. -/
inductive HttpBody where
  | unparseable (err : String)
  | parsed (d : ApiData)
deriving Repr, DecidableEq

/-- An HTTP response: `ok`, `status` and the body. -/
structure HttpResp where
  ok : Bool
  status : Nat
  body : HttpBody
deriving Repr, DecidableEq

/-- The external environment of one client call: the configured cache time
in hours (`chrome.storage` key `cacheTime` after `parseInt(..) || 0`), the
current time, and the HTTP transport. -/
structure Env where
  cacheTimeHours : Nat
  now : Nat
  http : String → HttpResp

/-- Mutable state of the api client singleton: the credential
(`this.apiKey`, `none` models `null`) and the cache. -/
structure ClientState where
  apiKey : Option String
  cache : Cache

/-- JavaScript truthiness of the `apiKey` field: `null` and the empty
string are falsy. -/
def keyTruthy : Option String → Bool
  | none => false
  | some s => s != ""

/-- Error message thrown by `request` when no key is set. -/
def notConfiguredMsg : String :=
  "YouTube API Key is not set. Please set it in the extension options."

/-- Generic error message used when an error body parses but carries no
`error.message`. -/
def genericStatusMsg (status : Nat) : String :=
  "API request failed with status: " ++ toString status

/-- The `request` method of the api client (api-client.js lines 51-97):
key guard, cache lookup, HTTP call, error mapping, cache store.  A thrown
JSON parse failure propagates through the catch block unchanged
(lines 93-96 rethrow). -/
def clientRequest (st : ClientState) (env : Env) (endpoint : String)
    (params : List (String × String)) : Except String ApiData × ClientState :=
  if keyTruthy st.apiKey = false then
    (.error notConfiguredMsg, st)
  else
    let url := requestUrl endpoint params
    let cacheKey := url
    let cacheTimeMs := env.cacheTimeHours * 3600000
    match cacheLookup st.cache cacheTimeMs env.now cacheKey with
    | some payload => (.ok payload, st)
    | none =>
      let fullUrl := url ++ "&key=" ++ (st.apiKey.getD "")
      let resp := env.http fullUrl
      if resp.ok = false then
        match resp.body with
        | .unparseable e => (.error e, st)
        | .parsed d =>
          (.error (match d.errorMessage with
                   | some m => m
                   | none => genericStatusMsg resp.status), st)
      else
        match resp.body with
        | .unparseable e => (.error e, st)
        | .parsed d =>
          (.ok d, { st with cache := cacheStore st.cache cacheTimeMs env.now cacheKey d })

/-- NotFound message of `getVideoData`. -/
def notFoundVideoMsg : String := "Video not found or no data available."

/-- NotFound message of `getChannelData`. -/
def notFoundChannelMsg : String := "Channel not found or no data available."

/-- NotFound message of `getTrendingVideos`. -/
def notFoundTrendingMsg : String := "No trending videos found."

/-- Post-processing of `getVideoData` (api-client.js lines 129-132):
returns the first item when `data.items` is a non-empty array, otherwise
throws the NotFound error. -/
def getVideoDataPost (data : ApiData) : Except String Item :=
  match data.items with
  | some (x :: _) => .ok x
  | _ => .error notFoundVideoMsg

/-- Post-processing of `getChannelData` (api-client.js lines 111-114). -/
def getChannelDataPost (data : ApiData) : Except String Item :=
  match data.items with
  | some (x :: _) => .ok x
  | _ => .error notFoundChannelMsg

/-- Post-processing of `getTrendingVideos` (api-client.js lines 157-160):
the whole non-empty item list or the NotFound error. -/
def getTrendingVideosPost (data : ApiData) : Except String (List Item) :=
  match data.items with
  | some (x :: xs) => .ok (x :: xs)
  | _ => .error notFoundTrendingMsg

/-- The comment object produced by the mapping in `getVideoComments`. -/
structure MappedComment where
  author : String
  text : String
  likeCount : Nat
  publishedAt : String
deriving Repr, DecidableEq

/-- The per-item mapping of `getVideoComments` (api-client.js lines
178-183).  On an item that is not commentThread shaped the nested accesses
of the source would throw, modelled by the error branch. -/
def mapCommentItem : Item → Except String MappedComment
  | .commentThread t =>
    .ok ⟨t.snippet.topLevelComment.snippet.authorDisplayName,
         t.snippet.topLevelComment.snippet.textDisplay,
         t.snippet.topLevelComment.snippet.likeCount,
         t.snippet.topLevelComment.snippet.publishedAt⟩
  | _ => .error "TypeError: cannot read snippet of undefined"

/-- Post-processing of `getVideoComments` (api-client.js lines 177-185):
when `data.items` exists (even as an empty array, which is truthy in
JavaScript) the items are mapped; when it is absent an empty list is
returned.  No empty-list case throws. -/
def getVideoCommentsPost (data : ApiData) : Except String (List MappedComment) :=
  match data.items with
  | some l => l.mapM mapCommentItem
  | none => .ok []

/-- The search result object produced by the mapping in `searchContent`. -/
structure MappedSearchResult where
  id : Option String
  title : String
  description : String
  thumbnailUrl : Option String
  channelTitle : String
  publishedAt : String
deriving Repr, DecidableEq

/-- The per-item mapping of `searchContent` (api-client.js lines 226-233);
the id field is selected by the requested result type. -/
def mapSearchItem (ty : String) : Item → Except String MappedSearchResult
  | .search s =>
    .ok ⟨(if ty = "video" then s.id.videoId
          else if ty = "channel" then s.id.channelId
          else s.id.playlistId),
         s.snippet.title, s.snippet.description, s.snippet.thumbnailMediumUrl,
         s.snippet.channelTitle, s.snippet.publishedAt⟩
  | _ => .error "TypeError: cannot read videoId of undefined"

/-- Post-processing of `searchContent` (api-client.js lines 225-235): same
structure as `getVideoCommentsPost`; an empty item list maps to an empty
result list, not to an error. -/
def searchContentPost (ty : String) (data : ApiData) :
    Except String (List MappedSearchResult) :=
  match data.items with
  | some l => l.mapM (mapSearchItem ty)
  | none => .ok []

/-- The accessor `getVideoData` of the api client: `request` on the videos
endpoint followed by the first-item extraction. -/
def getVideoData (st : ClientState) (env : Env) (videoId : String) :
    Except String Item × ClientState :=
  let r := clientRequest st env "videos"
    [("part", "snippet,statistics,contentDetails,topicDetails"), ("id", videoId)]
  match r.1 with
  | .error e => (.error e, r.2)
  | .ok d => (getVideoDataPost d, r.2)

/-- The accessor `getChannelData` of the api client. -/
def getChannelData (st : ClientState) (env : Env) (channelId : String) :
    Except String Item × ClientState :=
  let r := clientRequest st env "channels"
    [("part", "snippet,statistics,brandingSettings"), ("id", channelId)]
  match r.1 with
  | .error e => (.error e, r.2)
  | .ok d => (getChannelDataPost d, r.2)

/-- The accessor `getTrendingVideos`; the category parameter is added only
when the category string is truthy (non-empty). -/
def getTrendingVideos (st : ClientState) (env : Env)
    (regionCode category : String) : Except String (List Item) × ClientState :=
  let params :=
    [("part", "snippet,statistics"), ("chart", "mostPopular"),
     ("maxResults", "20"), ("regionCode", regionCode)] ++
    (if category != "" then [("videoCategoryId", category)] else [])
  let r := clientRequest st env "videos" params
  match r.1 with
  | .error e => (.error e, r.2)
  | .ok d => (getTrendingVideosPost d, r.2)

/-- The accessor `getVideoComments`. -/
def getVideoComments (st : ClientState) (env : Env) (videoId : String)
    (maxResults : Nat) : Except String (List MappedComment) × ClientState :=
  let r := clientRequest st env "commentThreads"
    [("part", "snippet"), ("videoId", videoId), ("maxResults", toString maxResults)]
  match r.1 with
  | .error e => (.error e, r.2)
  | .ok d => (getVideoCommentsPost d, r.2)

/-- The accessor `searchContent`. -/
def searchContent (st : ClientState) (env : Env) (query ty : String)
    (maxResults : Nat) : Except String (List MappedSearchResult) × ClientState :=
  let r := clientRequest st env "search"
    [("part", "snippet"), ("q", query), ("type", ty), ("maxResults", toString maxResults)]
  match r.1 with
  | .error e => (.error e, r.2)
  | .ok d => (searchContentPost ty d, r.2)

/-- The two-decimal rounding `parseFloat(x.toFixed(2))` of the source. -/
def round2 (q : ℚ) : ℚ := ((round (q * 100) : ℤ) : ℚ) / 100

/-- The like-view ratio of `calculateVideoKPIs` (data-processor.js line 48):
`(likeCount / viewCount) * 100` when views are positive, else 0. -/
def likeViewRatio (viewCount likeCount : Nat) : ℚ :=
  if 0 < viewCount then (likeCount : ℚ) / viewCount * 100 else 0

/-- The comment-view ratio (data-processor.js line 49). -/
def commentViewRatio (viewCount commentCount : Nat) : ℚ :=
  if 0 < viewCount then (commentCount : ℚ) / viewCount * 100 else 0

/-- The engagement rate (data-processor.js line 50). -/
def engagementRate (viewCount likeCount commentCount : Nat) : ℚ :=
  if 0 < viewCount then ((likeCount : ℚ) + commentCount) / viewCount * 100 else 0

/-- Sub-score of the performance score from the like-view ratio
(data-processor.js lines 64-71), at most 40 points. -/
def likeRatioScore (r : ℚ) : Nat :=
  if r > 15 then 40
  else if r > 10 then 35
  else if r > 5 then 30
  else if r > 3 then 25
  else if r > 1 then 20
  else if r > 1/2 then 15
  else if r > 1/10 then 10
  else 5

/-- Sub-score from the comment-view ratio (data-processor.js lines 74-79),
at most 30 points. -/
def commentRatioScore (r : ℚ) : Nat :=
  if r > 1 then 30
  else if r > 1/2 then 25
  else if r > 3/10 then 20
  else if r > 1/10 then 15
  else if r > 1/20 then 10
  else 5

/-- Sub-score from the view count (data-processor.js lines 82-91), at most
30 points. -/
def viewCountScore (v : Nat) : Nat :=
  if v > 1000000 then 30
  else if v > 500000 then 27
  else if v > 100000 then 24
  else if v > 50000 then 21
  else if v > 10000 then 18
  else if v > 5000 then 15
  else if v > 1000 then 12
  else if v > 500 then 9
  else if v > 100 then 6
  else 3

/-- The video performance score (data-processor.js lines 61-91 and 102):
the three sub-scores are accumulated and the result is
`Math.min(100, Math.round(total))`; the total is an integer, so the
rounding is the identity. -/
def performanceScore (viewCount likeCount commentCount : Nat) : Nat :=
  min 100 (likeRatioScore (likeViewRatio viewCount likeCount) +
           commentRatioScore (commentViewRatio viewCount commentCount) +
           viewCountScore viewCount)

/-- The structured KPI object returned by `calculateVideoKPIs` on success. -/
structure VideoKPIs where
  viewCount : Nat
  likeCount : Nat
  commentCount : Nat
  likeViewRatio : ℚ
  commentViewRatio : ℚ
  engagementRate : ℚ
  daysSincePublished : Int
  dailyViewCount : ℚ
  performanceScore : Nat
deriving Repr, DecidableEq

/-- Result of `calculateVideoKPIs`: either the tagged error object for
invalid input or the KPI object. -/
inductive VideoKPIOutcome where
  | invalid (msg : String)
  | kpis (k : VideoKPIs)
deriving Repr, DecidableEq

/-- The function `calculateVideoKPIs` (data-processor.js lines 34-104).
The guard at lines 35-39 covers only a missing input object or missing
`statistics`; line 53 then dereferences `videoData.snippet.publishedAt`,
which throws a TypeError when `snippet` is absent — that throw is the
`Except.error` branch. -/
def calculateVideoKPIs (now : Int) : Option VideoData → Except String VideoKPIOutcome
  | none => .ok (.invalid "无效的视频数据")
  | some vd =>
    match vd.statistics with
    | none => .ok (.invalid "无效的视频数据")
    | some stats =>
      let viewCount := stats.viewCount
      let likeCount := stats.likeCount
      let commentCount := stats.commentCount
      match vd.snippet with
      | none => .error "TypeError: cannot read publishedAt of undefined"
      | some sn =>
        let daysSincePublished : Int := Int.fdiv (now - sn.publishedAt) 86400000
        let dailyViewCount : ℚ :=
          if 0 < daysSincePublished then (viewCount : ℚ) / (daysSincePublished : ℚ)
          else (viewCount : ℚ)
        .ok (.kpis
          { viewCount, likeCount, commentCount,
            likeViewRatio := round2 (likeViewRatio viewCount likeCount),
            commentViewRatio := round2 (commentViewRatio viewCount commentCount),
            engagementRate := round2 (engagementRate viewCount likeCount commentCount),
            daysSincePublished,
            dailyViewCount := round2 dailyViewCount,
            performanceScore := performanceScore viewCount likeCount commentCount })

/-- Sub-score of the channel score from the subscriber count
(data-processor.js lines 151-160), at most 40 points. -/
def subscriberScore (s : Nat) : Nat :=
  if s > 1000000 then 40
  else if s > 500000 then 36
  else if s > 100000 then 32
  else if s > 50000 then 28
  else if s > 10000 then 24
  else if s > 5000 then 20
  else if s > 1000 then 16
  else if s > 500 then 12
  else if s > 100 then 8
  else 4

/-- Sub-score from the views-per-subscriber ratio (lines 163-170), at most
30 points. -/
def viewsPerSubscriberScore (r : ℚ) : Nat :=
  if r > 1000 then 30
  else if r > 500 then 27
  else if r > 200 then 24
  else if r > 100 then 21
  else if r > 50 then 18
  else if r > 20 then 15
  else if r > 10 then 12
  else 9

/-- Sub-score from the monthly upload cadence (lines 173-182), at most 30
points. -/
def videosPerMonthScore (r : ℚ) : Nat :=
  if r > 20 then 30
  else if r > 15 then 27
  else if r > 10 then 24
  else if r > 8 then 21
  else if r > 6 then 18
  else if r > 4 then 15
  else if r > 2 then 12
  else if r > 1 then 9
  else if r > 1/2 then 6
  else 3

/-- The structured KPI object returned by `calculateChannelKPIs`. -/
structure ChannelKPIs where
  subscriberCount : Nat
  viewCount : Nat
  videoCount : Nat
  viewsPerVideo : ℚ
  subscribersPerVideo : ℚ
  viewsPerSubscriber : ℚ
  daysSinceCreated : Int
  monthsSinceCreated : Int
  yearsSinceCreated : Int
  dailySubscriberGrowth : ℚ
  monthlySubscriberGrowth : ℚ
  yearlySubscriberGrowth : ℚ
  dailyViewGrowth : ℚ
  monthlyViewGrowth : ℚ
  yearlyViewGrowth : ℚ
  videosPerMonth : ℚ
  videosPerYear : ℚ
  channelScore : Nat
deriving Repr, DecidableEq

/-- Result of `calculateChannelKPIs`. -/
inductive ChannelKPIOutcome where
  | invalid (msg : String)
  | kpis (k : ChannelKPIs)
deriving Repr, DecidableEq

/-- The function `calculateChannelKPIs` (data-processor.js lines 111-204);
same guard structure as the video variant: `snippet` is dereferenced at
line 129 without being guarded, so an input with statistics but no snippet
throws. -/
def calculateChannelKPIs (now : Int) : Option ChannelData → Except String ChannelKPIOutcome
  | none => .ok (.invalid "无效的频道数据")
  | some cd =>
    match cd.statistics with
    | none => .ok (.invalid "无效的频道数据")
    | some stats =>
      let subscriberCount := stats.subscriberCount
      let viewCount := stats.viewCount
      let videoCount := stats.videoCount
      let viewsPerVideo : ℚ := if 0 < videoCount then (viewCount : ℚ) / videoCount else 0
      let subscribersPerVideo : ℚ := if 0 < videoCount then (subscriberCount : ℚ) / videoCount else 0
      let viewsPerSubscriber : ℚ := if 0 < subscriberCount then (viewCount : ℚ) / subscriberCount else 0
      match cd.snippet with
      | none => .error "TypeError: cannot read publishedAt of undefined"
      | some sn =>
        let daysSinceCreated : Int := Int.fdiv (now - sn.publishedAt) 86400000
        let monthsSinceCreated : Int := Int.fdiv daysSinceCreated 30
        let yearsSinceCreated : Int := Int.fdiv daysSinceCreated 365
        let dailySubscriberGrowth : ℚ :=
          if 0 < daysSinceCreated then (subscriberCount : ℚ) / (daysSinceCreated : ℚ) else subscriberCount
        let monthlySubscriberGrowth : ℚ :=
          if 0 < monthsSinceCreated then (subscriberCount : ℚ) / (monthsSinceCreated : ℚ) else subscriberCount
        let yearlySubscriberGrowth : ℚ :=
          if 0 < yearsSinceCreated then (subscriberCount : ℚ) / (yearsSinceCreated : ℚ) else subscriberCount
        let dailyViewGrowth : ℚ :=
          if 0 < daysSinceCreated then (viewCount : ℚ) / (daysSinceCreated : ℚ) else viewCount
        let monthlyViewGrowth : ℚ :=
          if 0 < monthsSinceCreated then (viewCount : ℚ) / (monthsSinceCreated : ℚ) else viewCount
        let yearlyViewGrowth : ℚ :=
          if 0 < yearsSinceCreated then (viewCount : ℚ) / (yearsSinceCreated : ℚ) else viewCount
        let videosPerMonth : ℚ :=
          if 0 < monthsSinceCreated then (videoCount : ℚ) / (monthsSinceCreated : ℚ) else videoCount
        let videosPerYear : ℚ :=
          if 0 < yearsSinceCreated then (videoCount : ℚ) / (yearsSinceCreated : ℚ) else videoCount
        let channelScore := min 100 (subscriberScore subscriberCount +
          viewsPerSubscriberScore viewsPerSubscriber + videosPerMonthScore videosPerMonth)
        .ok (.kpis
          { subscriberCount, viewCount, videoCount,
            viewsPerVideo := round2 viewsPerVideo,
            subscribersPerVideo := round2 subscribersPerVideo,
            viewsPerSubscriber := round2 viewsPerSubscriber,
            daysSinceCreated, monthsSinceCreated, yearsSinceCreated,
            dailySubscriberGrowth := round2 dailySubscriberGrowth,
            monthlySubscriberGrowth := round2 monthlySubscriberGrowth,
            yearlySubscriberGrowth := round2 yearlySubscriberGrowth,
            dailyViewGrowth := round2 dailyViewGrowth,
            monthlyViewGrowth := round2 monthlyViewGrowth,
            yearlyViewGrowth := round2 yearlyViewGrowth,
            videosPerMonth := round2 videosPerMonth,
            videosPerYear := round2 videosPerYear,
            channelScore })

/-- Prefix test on character lists, helper for the substring model. -/
def listPrefix : List Char → List Char → Bool
  | [], _ => true
  | _ :: _, [] => false
  | a :: as, b :: bs => a == b && listPrefix as bs

/-- Substring test on character lists, helper for `strIncludes`. -/
def hasSub (p : List Char) : List Char → Bool
  | [] => listPrefix p []
  | c :: ts => listPrefix p (c :: ts) || hasSub p ts

/-- The JavaScript `text.includes(sub)` substring test. -/
def strIncludes (s sub : String) : Bool := hasSub sub.data s.data

/-- Whitespace split modelling `s.split(/\s+/)` with empty fragments
dropped (the regex split can produce one leading empty string on leading
whitespace; that artefact only shifts word counts and is elided). -/
def splitWs (s : String) : List String :=
  (s.split fun c => c.isWhitespace).filter fun w => w != ""

/-- The positive word list of the sentiment dictionary
(data-processor.js lines 12-18). -/
def positiveWords : List String :=
  ["喜欢", "赞", "支持", "好看", "精彩", "棒", "帅", "厉害", "感谢", "谢谢",
   "爱", "漂亮", "优秀", "完美", "推荐", "好", "牛", "震撼", "赞赏", "学习",
   "love", "like", "good", "great", "excellent", "amazing", "awesome",
   "beautiful", "best", "thanks", "thank", "cool", "nice", "perfect",
   "recommend", "helpful", "impressive", "wonderful", "enjoy", "enjoyed"]

/-- The negative word list of the sentiment dictionary
(data-processor.js lines 19-25). -/
def negativeWords : List String :=
  ["差", "烂", "不好", "讨厌", "难看", "垃圾", "失望", "无聊", "浪费", "糟糕",
   "弱", "坑", "骗", "假", "水", "敷衍", "难受", "辣眼睛", "花里胡哨", "太长",
   "bad", "worst", "terrible", "horrible", "boring", "waste", "poor",
   "disappointed", "disappointing", "hate", "awful", "dislike", "useless",
   "stupid", "sucks", "fake", "clickbait", "misleading", "annoying", "ugly"]

/-- Number of dictionary words included in the (already lowercased)
comment text (data-processor.js lines 348-359). -/
def dictScore (dict : List String) (text : String) : Nat :=
  (dict.filter fun w => strIncludes text (w.toLower)).length

/-- One comment as fed to `analyzeCommentSentiment`; only the `text` field
is read by the source, and it may be absent. -/
structure SComment where
  text : Option String
deriving Repr, DecidableEq

/-- JavaScript truthiness of the `text` field of a comment: absent and
empty strings are falsy. -/
def truthyText (c : SComment) : Bool :=
  match c.text with
  | some s => s != ""
  | none => false

/-- Sentiment classification tag. -/
inductive Sentiment where
  | positive
  | negative
  | neutral
deriving Repr, DecidableEq, BEq

/-- An analyzed comment (data-processor.js lines 374-380): original text
plus the classification and the word scores. -/
structure AnalyzedComment where
  text : String
  sentiment : Sentiment
  positiveScore : Nat
  negativeScore : Nat
  overallScore : Int
deriving Repr, DecidableEq

/-- The per-comment analysis of `analyzeCommentSentiment`
(data-processor.js lines 340-381): a comment with falsy `text` is mapped
to `null` and later filtered out; otherwise it is classified by majority
keyword count. -/
def analyzeComment (c : SComment) : Option AnalyzedComment :=
  match c.text with
  | none => none
  | some t =>
    if t = "" then none
    else
      let text := t.toLower
      let positiveScore := dictScore positiveWords text
      let negativeScore := dictScore negativeWords text
      let sentiment :=
        if positiveScore > negativeScore then Sentiment.positive
        else if negativeScore > positiveScore then Sentiment.negative
        else Sentiment.neutral
      some ⟨t, sentiment, positiveScore, negativeScore,
            (positiveScore : Int) - (negativeScore : Int)⟩

/-- Stable descending insertion by `overallScore`, modelling the stable
`sort((a, b) => b.overallScore - a.overallScore)`. -/
def insertByScoreDesc (x : AnalyzedComment) : List AnalyzedComment → List AnalyzedComment
  | [] => [x]
  | y :: ys => if y.overallScore ≤ x.overallScore then x :: y :: ys
               else y :: insertByScoreDesc x ys

/-- Stable ascending insertion by `overallScore`, modelling
`sort((a, b) => a.overallScore - b.overallScore)`. -/
def insertByScoreAsc (x : AnalyzedComment) : List AnalyzedComment → List AnalyzedComment
  | [] => [x]
  | y :: ys => if x.overallScore ≤ y.overallScore then x :: y :: ys
               else y :: insertByScoreAsc x ys

/-- Stable sort by descending overall score. -/
def sortByScoreDesc (l : List AnalyzedComment) : List AnalyzedComment :=
  l.foldr insertByScoreDesc []

/-- Stable sort by ascending overall score. -/
def sortByScoreAsc (l : List AnalyzedComment) : List AnalyzedComment :=
  l.foldr insertByScoreAsc []

/-- The eleven descriptive bands of `getSentimentAssessment`
(data-processor.js lines 421-433). -/
def getSentimentAssessment (score : ℚ) : String :=
  if score ≥ 80 then "极其积极 - 观众反应非常热烈"
  else if score ≥ 60 then "非常积极 - 观众反应热情"
  else if score ≥ 40 then "相当积极 - 观众普遍喜欢"
  else if score ≥ 20 then "较为积极 - 观众反应良好"
  else if score ≥ 10 then "略微积极 - 观众稍有好感"
  else if score > -10 then "中性 - 观众反应平淡"
  else if score > -20 then "略微消极 - 观众略有不满"
  else if score > -40 then "较为消极 - 观众有明显不满"
  else if score > -60 then "相当消极 - 观众普遍不满"
  else if score > -80 then "非常消极 - 观众反应强烈不满"
  else "极其消极 - 观众反应极度负面"

/-- The sentiment distribution percentages of the result object. -/
structure SentimentDistribution where
  positive : ℚ
  neutral : ℚ
  negative : ℚ
deriving Repr, DecidableEq

/-- The success result of `analyzeCommentSentiment`.  The three
classification counters are local variables of the source
(`positiveCount` etc.); the model exposes them as fields so theorems can
speak about them. -/
structure SentimentData where
  sentimentScore : ℚ
  sentimentDistribution : SentimentDistribution
  commentCount : Nat
  positiveCount : Nat
  neutralCount : Nat
  negativeCount : Nat
  mostPositiveComments : List AnalyzedComment
  mostNegativeComments : List AnalyzedComment
  sentimentAssessment : String
deriving Repr, DecidableEq

/-- Result of `analyzeCommentSentiment`: the early tagged error object for
an absent or empty input list, or the analysis result. -/
inductive SentimentOutcome where
  | noData (msg : String)
  | ok (d : SentimentData)
deriving Repr, DecidableEq

/-- The function `analyzeCommentSentiment` (data-processor.js lines
321-414).  Comments whose `text` is falsy are dropped; `commentCount` is
the number of remaining comments.  When every comment is dropped the
percentage divisions are 0/0 — NaN in JavaScript, 0 in this `ℚ` model;
either way the resulting distribution does not sum to 100. -/
def analyzeCommentSentiment (comments : List SComment) : SentimentOutcome :=
  if comments.length = 0 then .noData "无评论数据"
  else
    let analyzedComments := comments.filterMap analyzeComment
    let positiveCount := (analyzedComments.filter fun a => a.sentiment == Sentiment.positive).length
    let negativeCount := (analyzedComments.filter fun a => a.sentiment == Sentiment.negative).length
    let neutralCount := (analyzedComments.filter fun a => a.sentiment == Sentiment.neutral).length
    let commentCount := analyzedComments.length
    let totalPositive : ℚ := (positiveCount : ℚ) / commentCount * 100
    let totalNegative : ℚ := (negativeCount : ℚ) / commentCount * 100
    let sentimentScore := round2 (totalPositive - totalNegative)
    .ok
      { sentimentScore,
        sentimentDistribution :=
          { positive := round2 ((positiveCount : ℚ) / commentCount * 100),
            neutral := round2 ((neutralCount : ℚ) / commentCount * 100),
            negative := round2 ((negativeCount : ℚ) / commentCount * 100) },
        commentCount, positiveCount, neutralCount, negativeCount,
        mostPositiveComments := (sortByScoreDesc analyzedComments).take 3,
        mostNegativeComments := (sortByScoreAsc analyzedComments).take 3,
        sentimentAssessment := getSentimentAssessment sentimentScore }

/-- The attention word list of `analyzeTitleEffectiveness`
(data-processor.js lines 465-468). -/
def attentionWords : List String :=
  ["最", "最好", "必看", "秘密", "惊人", "震撼", "爆款", "神器", "史上",
   "best", "amazing", "shocking", "secret", "ultimate", "perfect", "must see"]

/-- The data object returned by `analyzeTitleEffectiveness` on success. -/
structure TitleData where
  length : Nat
  wordCount : Nat
  lengthAssessment : String
  containsAttentionWord : Bool
  containsNumbers : Bool
  containsQuestion : Bool
  titleScore : Nat
  suggestions : List String
deriving Repr, DecidableEq

/-- Result of `analyzeTitleEffectiveness`. -/
inductive TitleOutcome where
  | noData (msg : String)
  | ok (t : TitleData)
deriving Repr, DecidableEq

/-- The function `generateTitleSuggestions` (data-processor.js lines
522-557): an ordered list of applicable suggestions with a default when
none applies. -/
def generateTitleSuggestions (title : String) : List String :=
  let wordCount := (splitWs title).length
  let length := title.length
  let s :=
    (if length < 30 then ["标题较短，可以添加更多关键词以提高搜索发现率"]
     else if length > 100 then ["标题过长，可能在搜索结果中被截断，建议精简"]
     else []) ++
    (if !(title.data.any Char.isDigit) then
       ["考虑在标题中添加数字，如5种方法、2023年最新等"]
     else []) ++
    (if !(strIncludes title "?" || strIncludes title "？") then
       ["考虑使用提问式标题，如如何...?、为什么...?等，以增加点击率"]
     else []) ++
    (if wordCount < 5 then ["标题词数较少，可以适当扩展以包含更多关键词"]
     else if wordCount > 15 then ["标题词数较多，可以考虑精简以增强可读性"]
     else [])
  if s.isEmpty then ["标题长度和结构良好，无明显改进建议"] else s

/-- The function `analyzeTitleEffectiveness` (data-processor.js lines
440-515): length and word-count bucketing plus keyword, digit and question
checks, combined into a score capped at 100. -/
def analyzeTitleEffectiveness (title : String) : TitleOutcome :=
  if title = "" then .noData "无标题数据"
  else
    let length := title.length
    let wordCount := (splitWs title).length
    let lengthAssessment :=
      if length > 100 then "过长 - YouTube搜索结果中可能会被截断"
      else if length > 70 then "较长 - 在某些界面可能显示不完整"
      else if length > 40 then "适中 - 长度合理"
      else if length > 20 then "较短 - 可以适当增加信息量"
      else "过短 - 可能缺乏足够的关键词"
    let containsAttentionWord :=
      attentionWords.any fun w => strIncludes title.toLower w.toLower
    let containsNumbers := title.data.any Char.isDigit
    let containsQuestion := strIncludes title "?" || strIncludes title "？"
    let base :=
      if length ≥ 40 ∧ length ≤ 70 then 30
      else if length > 30 ∧ length < 40 then 25
      else if length > 70 ∧ length ≤ 100 then 20
      else if length > 20 ∧ length ≤ 30 then 15
      else 10
    let withWords :=
      base + (if containsAttentionWord then 20 else 0) +
      (if containsNumbers then 20 else 0) +
      (if containsQuestion then 15 else 0) +
      (if wordCount ≥ 6 ∧ wordCount ≤ 12 then 15
       else if wordCount > 4 ∧ wordCount < 6 then 12
       else if wordCount > 12 ∧ wordCount ≤ 15 then 10
       else 5)
    .ok { length, wordCount, lengthAssessment, containsAttentionWord,
          containsNumbers, containsQuestion,
          titleScore := min 100 withWords,
          suggestions := generateTitleSuggestions title }

/-- Helper: is the next character present and not whitespace. -/
def nextNonSpace : List Char → Bool
  | c :: _ => !c.isWhitespace
  | [] => false

/-- Helper: does a link (`http://` or `https://` followed by one
non-whitespace character) start at this position. -/
def linkAt (l : List Char) : Bool :=
  if listPrefix "https://".data l then nextNonSpace (l.drop 8)
  else if listPrefix "http://".data l then nextNonSpace (l.drop 7)
  else false

/-- Scan for a link anywhere in the text, modelling
`/https?:\/\/[^\s]+/.test(description)`. -/
def hasLink : List Char → Bool
  | [] => false
  | c :: rest => linkAt (c :: rest) || hasLink rest

/-- Helper: does a timestamp of shape `d:dd` or `dd:dd` start at this
position, modelling the core of `/\b\d{1,2}:\d{2}(:\d{2})?\b/` (the word
boundaries of the regex are elided). -/
def timestampAt : List Char → Bool
  | a :: ':' :: d1 :: d2 :: _ => a.isDigit && d1.isDigit && d2.isDigit
  | a :: b :: ':' :: d1 :: d2 :: _ => a.isDigit && b.isDigit && d1.isDigit && d2.isDigit
  | _ => false

/-- Scan for a timestamp anywhere in the text. -/
def hasTimestamp : List Char → Bool
  | [] => false
  | c :: rest => timestampAt (c :: rest) || hasTimestamp rest

/-- Helper: is this a hashtag body character
(`[a-zA-Z0-9_一-龥]`). -/
def isHashChar (c : Char) : Bool :=
  c.isAlphanum || c == '_' || (0x4e00 ≤ c.toNat && c.toNat ≤ 0x9fa5)

/-- Scan for a hashtag (`#` followed by a hashtag character), modelling
`/#[a-zA-Z0-9_一-龥]+/.test(description)`. -/
def hasHashtag : List Char → Bool
  | [] => false
  | '#' :: c :: rest => isHashChar c || hasHashtag (c :: rest)
  | _ :: rest => hasHashtag rest

/-- The call-to-action word list of `analyzeDescriptionEffectiveness`
(data-processor.js lines 589-592). -/
def ctaWords : List String :=
  ["订阅", "点赞", "关注", "评论", "分享", "加入", "通知", "打开", "开启",
   "subscribe", "like", "follow", "comment", "share", "join", "notification", "bell"]

/-- The data object returned by `analyzeDescriptionEffectiveness` on
success. -/
structure DescriptionData where
  length : Nat
  paragraphCount : Nat
  lengthAssessment : String
  recommendedLength : String
  containsLinks : Bool
  containsTimestamps : Bool
  containsHashtags : Bool
  containsCTA : Bool
  descriptionScore : Nat
  suggestions : List String
deriving Repr, DecidableEq

/-- Result of `analyzeDescriptionEffectiveness`; the `noData` branch is the
source object `{error, length: 0, ..., descriptionScore: 0}`. -/
inductive DescriptionOutcome where
  | noData (msg : String)
  | ok (d : DescriptionData)
deriving Repr, DecidableEq

/-- The function `generateDescriptionSuggestions` (data-processor.js lines
658-694). -/
def generateDescriptionSuggestions (description : String) (length : Nat)
    (containsLinks containsTimestamps containsCTA : Bool) : List String :=
  let s :=
    (if length < 500 then ["描述太短，建议扩展至少1000字符以提高SEO效果"]
     else if length > 3000 then ["描述可能过长，考虑精简并突出重点内容"]
     else []) ++
    (if !containsLinks then ["建议添加相关链接，如社交媒体、网站或相关视频"] else []) ++
    (if !containsTimestamps then ["添加时间戳可以帮助观众快速导航到感兴趣的部分"] else []) ++
    (if !containsCTA then ["添加明确的行动号召，如点赞订阅、开启通知等"] else []) ++
    (if (description.splitOn "\n\n").length < 3 ∧ length > 500 then
       ["建议使用多个段落和空行来提高可读性"]
     else [])
  if s.isEmpty then ["描述内容全面且结构良好，无明显改进建议"] else s

/-- The function `analyzeDescriptionEffectiveness` (data-processor.js
lines 564-647). -/
def analyzeDescriptionEffectiveness (description : String) : DescriptionOutcome :=
  if description = "" then .noData "无描述数据"
  else
    let length := description.length
    let paragraphCount := (description.splitOn "\n\n").length
    let containsLinks := hasLink description.data
    let containsTimestamps := hasTimestamp description.data
    let containsHashtags := hasHashtag description.data
    let containsCTA := ctaWords.any fun w => strIncludes description.toLower w.toLower
    let base :=
      if length ≥ 1000 ∧ length ≤ 2000 then 40
      else if length ≥ 500 ∧ length < 1000 then 35
      else if length > 2000 ∧ length ≤ 3000 then 30
      else if length ≥ 200 ∧ length < 500 then 25
      else if length > 3000 then 20
      else 10
    let score :=
      base + (if containsLinks then 15 else 0) +
      (if containsTimestamps then 15 else 0) +
      (if containsHashtags then 15 else 0) +
      (if containsCTA then 15 else 0)
    let lengthAssessment :=
      if length > 3000 then "过长 - 内容可能冗余"
      else if length ≥ 1000 ∧ length ≤ 2000 then "理想 - 长度合适，有充分的SEO价值"
      else if length ≥ 500 ∧ length < 1000 then "适中 - 长度合理"
      else if length ≥ 200 ∧ length < 500 then "较短 - 可以添加更多内容"
      else "过短 - 建议大幅增加内容和关键词"
    .ok { length, paragraphCount, lengthAssessment,
          recommendedLength := "1000-2000字符",
          containsLinks, containsTimestamps, containsHashtags, containsCTA,
          descriptionScore := min 100 score,
          suggestions := generateDescriptionSuggestions description length
            containsLinks containsTimestamps containsCTA }

/-- Occurrence bump into an insertion-ordered association list, modelling
`wordCounts[word] = (wordCounts[word] || 0) + 1`. -/
def bumpWord : List (String × Nat) → String → List (String × Nat)
  | [], w => [(w, 1)]
  | (k, c) :: rest, w =>
    if k = w then (k, c + 1) :: rest else (k, c) :: bumpWord rest w

/-- The tag word counting of `analyzeVideoTags` (data-processor.js lines
225-235): every tag is lowercased, split on whitespace, words of length at
most 2 are skipped. -/
def tagWordCounts (tags : List String) : List (String × Nat) :=
  tags.foldl
    (fun acc tag =>
      ((splitWs tag.toLower).filter fun w => w.length > 2).foldl bumpWord acc)
    []

/-- Stable descending insertion by count, modelling the stable
`sort((a, b) => b.count - a.count)`. -/
def insertWordDesc (x : String × Nat) : List (String × Nat) → List (String × Nat)
  | [] => [x]
  | y :: ys => if y.2 ≤ x.2 then x :: y :: ys else y :: insertWordDesc x ys

/-- Stable sort of the word-frequency list by descending count. -/
def sortWordsDesc (l : List (String × Nat)) : List (String × Nat) :=
  l.foldr insertWordDesc []

/-- Deduplication keeping first occurrences, modelling
`filter((word, index, self) => self.indexOf(word) === index)`. -/
def dedupFirstAux (seen : List String) : List String → List String
  | [] => []
  | x :: xs =>
    if seen.contains x then dedupFirstAux seen xs
    else x :: dedupFirstAux (x :: seen) xs

/-- Deduplication keeping first occurrences. -/
def dedupFirst (l : List String) : List String := dedupFirstAux [] l

/-- The function `generateTagSuggestions` (data-processor.js lines
289-314): candidate keywords from the title and the first sentences of the
description, minus words already contained in an existing tag, deduplicated
and capped at 5. -/
def generateTagSuggestions (existingTags : List String)
    (title description : String) : List String :=
  let existingTagsLower := existingTags.map String.toLower
  let titleWords :=
    if title != "" then (splitWs title).filter (fun w => w.length > 3) else []
  let descWords :=
    if description != "" then
      let firstFewSentences :=
        String.intercalate ". "
          (((description.split fun c =>
              c == '.' || c == '!' || c == '?' || c == '。' || c == '！' || c == '？').take 3))
      (splitWs firstFewSentences).filter (fun w => w.length > 3)
    else []
  let potentialKeywords := titleWords ++ descWords
  (dedupFirst (potentialKeywords.filter fun w =>
      !(existingTagsLower.any fun tag => strIncludes tag w.toLower))).take 5

/-- The data object returned by `analyzeVideoTags` on success. -/
structure TagData where
  tagCount : Nat
  tags : List String
  avgTagLength : ℚ
  mostFrequentWords : List (String × Nat)
  tagQuantityAssessment : String
  tagLengthAssessment : String
  suggestions : List String
deriving Repr, DecidableEq

/-- Result of `analyzeVideoTags`; the `noData` branch is the source object
`{error, tagCount: 0, tags: [], mostFrequentWords: []}`. -/
inductive TagOutcome where
  | noData (msg : String)
  | ok (t : TagData)
deriving Repr, DecidableEq

/-- The function `analyzeVideoTags` (data-processor.js lines 211-280).  Its
guard covers the input object, `snippet`, `tags` and emptiness, so unlike
the KPI functions it never dereferences an absent field. -/
def analyzeVideoTags (videoData : Option VideoData) : TagOutcome :=
  match videoData with
  | none => .noData "无标签数据"
  | some vd =>
    match vd.snippet with
    | none => .noData "无标签数据"
    | some sn =>
      match sn.tags with
      | none => .noData "无标签数据"
      | some [] => .noData "无标签数据"
      | some (t0 :: rest) =>
        let tags := t0 :: rest
        let tagCount := tags.length
        let mostFrequentWords := (sortWordsDesc (tagWordCounts tags)).take 10
        let totalLength : Nat := (tags.map String.length).foldl (fun a b => a + b) 0
        let avgTagLength : ℚ := (totalLength : ℚ) / (tagCount : ℚ)
        let tagQuantityAssessment :=
          if tagCount ≥ 15 then "优秀 - 使用了充分的标签数量"
          else if tagCount ≥ 10 then "良好 - 标签数量合理"
          else if tagCount ≥ 5 then "一般 - 可以添加更多标签"
          else "不足 - 标签数量太少，建议增加"
        let tagLengthAssessment :=
          if avgTagLength > 20 then "标签平均长度较长，可能包含详细的关键词短语"
          else if avgTagLength > 10 then "标签平均长度适中，平衡了具体性和简洁性"
          else "标签平均长度较短，可能不够具体"
        .ok { tagCount, tags,
              avgTagLength := round2 avgTagLength,
              mostFrequentWords, tagQuantityAssessment, tagLengthAssessment,
              suggestions := generateTagSuggestions tags sn.title sn.description }

/-- A typed request received by the background message router
(`handleMessage`, background.js lines 507-705). -/
inductive ReqMsg where
  | getChannelData (channelId : String)
  | getVideoData (videoId : String)
  | getTrendingVideos (regionCode category : String)
  | getVideoComments (videoId : String) (maxResults : Option Nat)
  | analyzeVideoData (videoId : String)
  | analyzeChannelData (channelId : String)
  | analyzeComments (videoId : String) (maxResults : Option Nat)
  | saveApiKey (apiKey : String)
  | clearCache
  | unknown (ty : String)
deriving Repr, DecidableEq

/-- The data part of a successful typed response. -/
inductive RespData where
  | item (i : Item)
  | items (l : List Item)
  | comments (l : List MappedComment)
  | videoAnalysis (raw : Item) (kpis : VideoKPIOutcome) (tagAnalysis : TagOutcome)
      (titleAnalysis : TitleOutcome) (descriptionAnalysis : DescriptionOutcome)
  | channelAnalysis (raw : Item) (kpis : ChannelKPIOutcome)
  | commentAnalysis (comments : List MappedComment) (sentimentAnalysis : SentimentOutcome)
deriving Repr, DecidableEq

/-- The typed response `{success, data?, error?}` sent by the router. -/
structure MsgResponse where
  success : Bool
  data : Option RespData := none
  error : Option String := none
deriving Repr, DecidableEq

/-- An error response. -/
def errResp (msg : String) : MsgResponse := { success := false, error := some msg }

/-- A success response carrying data. -/
def okResp (d : RespData) : MsgResponse := { success := true, data := some d }

/-- The guard message sent when the api client has no truthy key
(background.js lines 516-520). -/
def notReadyMsg : String := "Extension not fully initialized. Please try again."

/-- The guard message sent when the extension context is invalid
(background.js lines 509-513). -/
def contextInvalidMsg : String :=
  "Extension context is invalid. Please reload the extension."

/-- The response for an unrecognised request type. -/
def unknownTypeMsg : String := "Unknown message type"

/-- The message router `handleMessage` of background.js (lines 507-705).
The context validity checked repeatedly by the source is modelled as one
boolean for the whole call.  Requests that arrive while the key guard
fails are answered immediately with `notReadyMsg`; the source has no
request queue.  In the ANALYZE branches a thrown analyzer error reaches
the inner catch and is sent back as the error string; an item whose shape
does not match the analyzer is modelled with a TypeError response. -/
def handleMessage (contextValid : Bool) (st : ClientState) (env : Env)
    (req : ReqMsg) : ClientState × MsgResponse :=
  if contextValid = false then (st, errResp contextInvalidMsg)
  else if keyTruthy st.apiKey = false then (st, errResp notReadyMsg)
  else
    match req with
    | .getChannelData channelId =>
      let r := getChannelData st env channelId
      match r.1 with
      | .ok i => (r.2, okResp (.item i))
      | .error e => (r.2, errResp e)
    | .getVideoData videoId =>
      let r := getVideoData st env videoId
      match r.1 with
      | .ok i => (r.2, okResp (.item i))
      | .error e => (r.2, errResp e)
    | .getTrendingVideos regionCode category =>
      let r := getTrendingVideos st env regionCode category
      match r.1 with
      | .ok l => (r.2, okResp (.items l))
      | .error e => (r.2, errResp e)
    | .getVideoComments videoId maxResults =>
      let r := getVideoComments st env videoId (maxResults.getD 20)
      match r.1 with
      | .ok l => (r.2, okResp (.comments l))
      | .error e => (r.2, errResp e)
    | .analyzeVideoData videoId =>
      let r := getVideoData st env videoId
      match r.1 with
      | .error e => (r.2, errResp e)
      | .ok item =>
        match item with
        | .video vd =>
          match calculateVideoKPIs (env.now : Int) (some vd) with
          | .error e => (r.2, errResp e)
          | .ok kpis =>
            match vd.snippet with
            | none => (r.2, errResp "TypeError: cannot read title of undefined")
            | some sn =>
              (r.2, okResp (.videoAnalysis item kpis (analyzeVideoTags (some vd))
                (analyzeTitleEffectiveness sn.title)
                (analyzeDescriptionEffectiveness sn.description)))
        | _ => (r.2, errResp "TypeError: cannot read title of undefined")
    | .analyzeChannelData channelId =>
      let r := getChannelData st env channelId
      match r.1 with
      | .error e => (r.2, errResp e)
      | .ok item =>
        match item with
        | .channel cd =>
          match calculateChannelKPIs (env.now : Int) (some cd) with
          | .error e => (r.2, errResp e)
          | .ok kpis => (r.2, okResp (.channelAnalysis item kpis))
        | _ => (r.2, errResp "TypeError: cannot read publishedAt of undefined")
    | .analyzeComments videoId maxResults =>
      let r := getVideoComments st env videoId (maxResults.getD 50)
      match r.1 with
      | .error e => (r.2, errResp e)
      | .ok comments =>
        let sentimentAnalysis :=
          analyzeCommentSentiment (comments.map fun m => ⟨some m.text⟩)
        (r.2, okResp (.commentAnalysis comments sentimentAnalysis))
    | .saveApiKey apiKey =>
      ({ apiKey := some apiKey, cache := emptyCache }, { success := true })
    | .clearCache =>
      ({ st with cache := emptyCache }, { success := true })
    | .unknown _ => (st, errResp unknownTypeMsg)

/-- Helper: the client request changes the cache at most at its own cache
key; every other key keeps its previous entry. -/
theorem clientRequest_cache_untouched (st : ClientState) (env : Env)
    (e : String) (p : List (String × String)) (key : String)
    (h : key ≠ requestCacheKey e p) :
    (clientRequest st env e p).2.cache key = st.cache key := by
  unfold clientRequest
  split
  · rfl
  · dsimp only
    split
    · rfl
    · split
      · split
        · rfl
        · rfl
      · split
        · rfl
        · dsimp only
          unfold cacheStore
          split
          · simp only
            rw [if_neg]
            exact h
          · rfl

/-- C2: with a positive expiry a get immediately after a put returns the
stored payload, a get only ever returns an entry younger than the expiry,
and with expiry 0 a get always misses and a put stores nothing. -/
theorem cache_expiry_spec (cache : Cache) (e now : Nat) (k : String) (p : ApiData) :
    (0 < e → cacheLookup (cacheStore cache e now k p) e now k = some p) ∧
    (∀ d, cacheLookup cache e now k = some d →
      0 < e ∧ ∃ entry, cache k = some entry ∧ entry.data = d ∧
        now - entry.timestamp < e) ∧
    (e = 0 → cacheLookup cache e now k = none ∧ cacheStore cache e now k p = cache) := by
  refine ⟨?_, ?_, ?_⟩
  · intro he
    have h1 : cacheStore cache e now k p k = some ⟨p, now⟩ := by
      simp [cacheStore, he]
    simp only [cacheLookup, if_pos he, h1]
    rw [if_pos (by omega : now - now < e)]
  · intro d hd
    unfold cacheLookup at hd
    split at hd
    · next he =>
      refine ⟨he, ?_⟩
      split at hd
      · next entry heq =>
        split at hd
        · next ht =>
          injection hd with h2
          exact ⟨entry, heq, h2, ht⟩
        · cases hd
      · cases hd
    · cases hd
  · intro he
    subst he
    constructor
    · simp [cacheLookup]
    · simp [cacheStore]

/-- Witness for `cache_expiry_spec` at a concrete cache, expiry and key. -/
theorem cache_expiry_spec_witness :
    cacheLookup (cacheStore emptyCache 3600000 5 "k" ⟨none, none⟩) 3600000 5 "k"
      = some ⟨none, none⟩ :=
  (cache_expiry_spec emptyCache 3600000 5 "k" ⟨none, none⟩).1 (by decide)

/-- C3 counterexample: a successful upstream response whose item list is
empty is NOT translated into a NotFound failure by `getVideoComments` or
`searchContent`; both return an empty list successfully, so the claim that
every accessor performs the translation is false. -/
theorem empty_items_counterexample :
    getVideoCommentsPost ⟨some [], none⟩ = .ok [] ∧
    searchContentPost "video" ⟨some [], none⟩ = .ok [] := ⟨rfl, rfl⟩

/-- C3 amended: `getVideoData`, `getChannelData` and `getTrendingVideos`
translate an empty (or absent) item list into their NotFound failure,
while `getVideoComments` and `searchContent` return an empty result list
successfully. -/
theorem empty_items_translation (e : Option String) (ty : String) :
    getVideoDataPost ⟨some [], e⟩ = .error notFoundVideoMsg ∧
    getVideoDataPost ⟨none, e⟩ = .error notFoundVideoMsg ∧
    getChannelDataPost ⟨some [], e⟩ = .error notFoundChannelMsg ∧
    getChannelDataPost ⟨none, e⟩ = .error notFoundChannelMsg ∧
    getTrendingVideosPost ⟨some [], e⟩ = .error notFoundTrendingMsg ∧
    getTrendingVideosPost ⟨none, e⟩ = .error notFoundTrendingMsg ∧
    getVideoCommentsPost ⟨some [], e⟩ = .ok [] ∧
    searchContentPost ty ⟨some [], e⟩ = .ok [] :=
  ⟨rfl, rfl, rfl, rfl, rfl, rfl, rfl, rfl⟩

/-- C1 counterexample: a typed request arriving while the worker is not
ready (the api client has no key) is rejected immediately with a uniform
error response; it is not queued, and the router state is unchanged, so
nothing can be dispatched later.  This refutes the queueing claim. -/
theorem early_request_rejected_counterexample :
    handleMessage true ⟨none, emptyCache⟩
      ⟨0, 0, fun _ => ⟨true, 200, .parsed ⟨none, none⟩⟩⟩ (.getVideoData "xyz")
      = (⟨none, emptyCache⟩,
         { success := false, data := none, error := some notReadyMsg }) := rfl

/-- C1 amended: every typed request that arrives while the api client has
no truthy key is answered immediately with exactly one uniform
not-ready error response, with the state unchanged; no request is queued,
silently dropped, or dispatched later. -/
theorem early_request_uniform_error (st : ClientState) (env : Env) (req : ReqMsg)
    (h : keyTruthy st.apiKey = false) :
    handleMessage true st env req = (st, errResp notReadyMsg) := by
  simp [handleMessage, h]

/-- Witness for `early_request_uniform_error`. -/
theorem early_request_uniform_error_witness :
    handleMessage true ⟨some "", emptyCache⟩
      ⟨0, 0, fun _ => ⟨true, 200, .parsed ⟨none, none⟩⟩⟩ .clearCache
      = (⟨some "", emptyCache⟩, errResp notReadyMsg) :=
  early_request_uniform_error _ _ _ (by decide)

/-- C9: the cache key of a request is the key-free URL built from the
endpoint and parameters only; the credential is appended only to the
outbound URL.  In particular two runs with the same endpoint and
parameters but different configured keys touch exactly the same cache key,
so the credential can never leak into the cache index. -/
theorem cacheKey_excludes_credential (e : String) (p : List (String × String))
    (c : Cache) (env : Env) (k1 k2 : String) :
    requestFullUrl e p k1 = requestCacheKey e p ++ "&key=" ++ k1 ∧
    requestFullUrl e p k2 = requestCacheKey e p ++ "&key=" ++ k2 ∧
    (∀ key, key ≠ requestCacheKey e p →
      (clientRequest ⟨some k1, c⟩ env e p).2.cache key = c key ∧
      (clientRequest ⟨some k2, c⟩ env e p).2.cache key = c key) := by
  refine ⟨rfl, rfl, fun key hkey => ⟨?_, ?_⟩⟩
  · exact clientRequest_cache_untouched ⟨some k1, c⟩ env e p key hkey
  · exact clientRequest_cache_untouched ⟨some k2, c⟩ env e p key hkey

/-- Witness for `cacheKey_excludes_credential`: a key different from the
concrete cache key keeps its cache entry across a request. -/
theorem cacheKey_excludes_credential_witness :
    (clientRequest ⟨some "AAA", emptyCache⟩
      ⟨1, 0, fun _ => ⟨true, 200, .parsed ⟨none, none⟩⟩⟩ "videos" [("id", "x")]).2.cache "other"
      = emptyCache "other" :=
  ((cacheKey_excludes_credential "videos" [("id", "x")] emptyCache
    ⟨1, 0, fun _ => ⟨true, 200, .parsed ⟨none, none⟩⟩⟩ "AAA" "BBB").2.2 "other"
    (by decide)).1

/-- C4 counterexample: after `SAVE_API_KEY` with the empty string, a
subsequent `GET_VIDEO_DATA` request is answered with the router's
not-ready guard error, which is a different error from the NotConfigured
message of the api client — the claimed NotConfigured failure never
surfaces through the message path. -/
theorem save_empty_key_counterexample :
    (handleMessage true
      (handleMessage true ⟨some "GOODKEY", emptyCache⟩
        ⟨0, 0, fun _ => ⟨true, 200, .parsed ⟨none, none⟩⟩⟩ (.saveApiKey "")).1
      ⟨0, 0, fun _ => ⟨true, 200, .parsed ⟨none, none⟩⟩⟩ (.getVideoData "xyz")).2
      = errResp notReadyMsg ∧
    notReadyMsg ≠ notConfiguredMsg := ⟨rfl, by decide⟩

/-- C4 amended: the api client itself fails with NotConfigured whenever
`request` runs without a truthy key; but a `GET_VIDEO_DATA` message sent
after `SAVE_API_KEY{apiKey:""}` is rejected earlier, by the router's
readiness guard with the not-ready error, and never reaches the client. -/
theorem notConfigured_guard (st st2 : ClientState) (env : Env) (e : String)
    (p : List (String × String)) (req : ReqMsg)
    (h : keyTruthy st.apiKey = false)
    (h2 : keyTruthy st2.apiKey = true) :
    clientRequest st env e p = (.error notConfiguredMsg, st) ∧
    (handleMessage true
      (handleMessage true st2 env (.saveApiKey "")).1 env req).2
      = errResp notReadyMsg := by
  constructor
  · simp [clientRequest, h]
  · have hsave : (handleMessage true st2 env (.saveApiKey "")).1
        = ⟨some "", emptyCache⟩ := by
      simp [handleMessage, h2]
    rw [hsave]
    have hempty : keyTruthy (some "") = false := by decide
    simp [handleMessage, hempty]

/-- Witness for `notConfigured_guard`. -/
theorem notConfigured_guard_witness :
    clientRequest ⟨none, emptyCache⟩
      ⟨0, 0, fun _ => ⟨true, 200, .parsed ⟨none, none⟩⟩⟩ "videos" [("id", "x")]
      = (.error notConfiguredMsg, ⟨none, emptyCache⟩) ∧
    (handleMessage true
      (handleMessage true ⟨some "K", emptyCache⟩
        ⟨0, 0, fun _ => ⟨true, 200, .parsed ⟨none, none⟩⟩⟩ (.saveApiKey "")).1
      ⟨0, 0, fun _ => ⟨true, 200, .parsed ⟨none, none⟩⟩⟩ (.getVideoData "v")).2
      = errResp notReadyMsg :=
  notConfigured_guard ⟨none, emptyCache⟩ ⟨some "K", emptyCache⟩
    ⟨0, 0, fun _ => ⟨true, 200, .parsed ⟨none, none⟩⟩⟩ "videos" [("id", "x")]
    (.getVideoData "v") (by decide) (by decide)

/-- C5 counterexample: on a non-success HTTP status whose body fails to
parse, `request` rethrows the parse error itself; the failure message is
the parse error, not the generic status-derived message the claim
requires. -/
theorem parse_failure_not_generic_counterexample :
    clientRequest ⟨some "K", emptyCache⟩
      ⟨0, 0, fun _ => ⟨false, 500, .unparseable "SyntaxError: Unexpected token"⟩⟩
      "videos" [("id", "x")]
      = (.error "SyntaxError: Unexpected token", ⟨some "K", emptyCache⟩) ∧
    "SyntaxError: Unexpected token" ≠ genericStatusMsg 500 := ⟨rfl, by decide⟩

/-- C5 amended: on a non-success HTTP status the client fails with the
upstream error message when the body parses and carries one, with the
generic status-derived message when the body parses without one, and with
the propagated parse error itself when the body cannot be parsed. -/
theorem upstream_error_mapping (st : ClientState) (env : Env) (e : String)
    (p : List (String × String))
    (hk : keyTruthy st.apiKey = true)
    (hm : cacheLookup st.cache (env.cacheTimeHours * 3600000) env.now
      (requestCacheKey e p) = none)
    (hok : (env.http (requestFullUrl e p (st.apiKey.getD ""))).ok = false) :
    (∀ err, (env.http (requestFullUrl e p (st.apiKey.getD ""))).body = .unparseable err →
      clientRequest st env e p = (.error err, st)) ∧
    (∀ d m, (env.http (requestFullUrl e p (st.apiKey.getD ""))).body = .parsed d →
      d.errorMessage = some m →
      clientRequest st env e p = (.error m, st)) ∧
    (∀ d, (env.http (requestFullUrl e p (st.apiKey.getD ""))).body = .parsed d →
      d.errorMessage = none →
      clientRequest st env e p =
        (.error (genericStatusMsg (env.http (requestFullUrl e p (st.apiKey.getD ""))).status), st)) := by
  have hok2 : (env.http (requestCacheKey e p ++ "&key=" ++ st.apiKey.getD "")).ok = false := hok
  refine ⟨?_, ?_, ?_⟩
  · intro err hb
    have hb2 : (env.http (requestCacheKey e p ++ "&key=" ++ st.apiKey.getD "")).body
        = HttpBody.unparseable err := hb
    simp only [clientRequest, hk, Bool.true_eq_false, if_false]
    rw [show requestUrl e p = requestCacheKey e p from rfl, hm]
    simp [hb2, hok2]
  · intro d m hb hmsg
    have hb2 : (env.http (requestCacheKey e p ++ "&key=" ++ st.apiKey.getD "")).body
        = HttpBody.parsed d := hb
    simp only [clientRequest, hk, Bool.true_eq_false, if_false]
    rw [show requestUrl e p = requestCacheKey e p from rfl, hm]
    simp [hb2, hok2, hmsg]
  · intro d hb hmsg
    have hb2 : (env.http (requestCacheKey e p ++ "&key=" ++ st.apiKey.getD "")).body
        = HttpBody.parsed d := hb
    simp only [clientRequest, hk, Bool.true_eq_false, if_false]
    rw [show requestUrl e p = requestCacheKey e p from rfl, hm]
    simp only [hb2, hok2, hmsg]
    rfl

/-- Witness for `upstream_error_mapping`. -/
theorem upstream_error_mapping_witness :
    clientRequest ⟨some "K", emptyCache⟩
      ⟨0, 0, fun _ => ⟨false, 403, .parsed ⟨none, some "quotaExceeded"⟩⟩⟩
      "videos" [("id", "x")]
      = (.error "quotaExceeded", ⟨some "K", emptyCache⟩) :=
  (upstream_error_mapping ⟨some "K", emptyCache⟩
    ⟨0, 0, fun _ => ⟨false, 403, .parsed ⟨none, some "quotaExceeded"⟩⟩⟩
    "videos" [("id", "x")] (by decide) (by decide) (by decide)).2.1
    ⟨none, some "quotaExceeded"⟩ "quotaExceeded" rfl rfl

/-- Helper: upper bound of the like-ratio sub-score. -/
theorem likeRatioScore_le (r : ℚ) : likeRatioScore r ≤ 40 := by
  unfold likeRatioScore
  split_ifs <;> omega

/-- Helper: upper bound of the comment-ratio sub-score. -/
theorem commentRatioScore_le (r : ℚ) : commentRatioScore r ≤ 30 := by
  unfold commentRatioScore
  split_ifs <;> omega

/-- Helper: upper bound of the view-count sub-score. -/
theorem viewCountScore_le (v : Nat) : viewCountScore v ≤ 30 := by
  unfold viewCountScore
  split_ifs <;> omega

set_option maxHeartbeats 4000000 in
/-- Helper: the like-ratio sub-score is a monotone step function. -/
theorem likeRatioScore_mono {r1 r2 : ℚ} (h : r1 ≤ r2) :
    likeRatioScore r1 ≤ likeRatioScore r2 := by
  unfold likeRatioScore
  split_ifs <;> first | omega | linarith

set_option maxHeartbeats 4000000 in
/-- Helper: the comment-ratio sub-score is a monotone step function. -/
theorem commentRatioScore_mono {r1 r2 : ℚ} (h : r1 ≤ r2) :
    commentRatioScore r1 ≤ commentRatioScore r2 := by
  unfold commentRatioScore
  split_ifs <;> first | omega | linarith

set_option maxHeartbeats 4000000 in
/-- Helper: the view-count sub-score is a monotone step function. -/
theorem viewCountScore_mono {v1 v2 : Nat} (h : v1 ≤ v2) :
    viewCountScore v1 ≤ viewCountScore v2 := by
  unfold viewCountScore
  split_ifs <;> omega

/-- C6: the video performance score is within [0,100] for arbitrary
non-negative counts, it is exactly the sum of the three independently
bucketed sub-scores clamped to 100 (the lower clamp is vacuous because
every branch is positive), and each sub-score is a monotonic step function
of its input. -/
theorem performanceScore_spec (v l c : Nat) :
    performanceScore v l c ≤ 100 ∧
    performanceScore v l c =
      min 100 (likeRatioScore (likeViewRatio v l) +
        commentRatioScore (commentViewRatio v c) + viewCountScore v) ∧
    (∀ r1 r2 : ℚ, r1 ≤ r2 → likeRatioScore r1 ≤ likeRatioScore r2) ∧
    (∀ r1 r2 : ℚ, r1 ≤ r2 → commentRatioScore r1 ≤ commentRatioScore r2) ∧
    (∀ v1 v2 : Nat, v1 ≤ v2 → viewCountScore v1 ≤ viewCountScore v2) :=
  ⟨Nat.min_le_left _ _, rfl,
   fun _ _ h => likeRatioScore_mono h,
   fun _ _ h => commentRatioScore_mono h,
   fun _ _ h => viewCountScore_mono h⟩

/-- Witness for `performanceScore_spec`: the bound and one monotonicity
instance at concrete inputs. -/
theorem performanceScore_spec_witness :
    performanceScore 1000 50 10 ≤ 100 ∧
    likeRatioScore 1 ≤ likeRatioScore 20 :=
  ⟨(performanceScore_spec 1000 50 10).1,
   (performanceScore_spec 0 0 0).2.2.1 1 20 (by norm_num)⟩

/-- C7 counterexample: `calculateVideoKPIs` applied to an object that has
`statistics` but no `snippet` does not return a tagged result object; the
unguarded dereference of `snippet.publishedAt` throws. -/
theorem kpi_throws_counterexample :
    calculateVideoKPIs 0 (some ⟨some ⟨0, 0, 0, 0⟩, none⟩)
      = .error "TypeError: cannot read publishedAt of undefined" := rfl

/-- C7 amended: `calculateVideoKPIs` and `calculateChannelKPIs` return the
tagged invalid-input object when the input or its `statistics` field is
absent and a structured KPI object when both `statistics` and `snippet`
are present, but they throw a TypeError — instead of returning a tagged
result — when `statistics` is present and `snippet` is absent, so the
no-throw guarantee does not hold for all malformed inputs. -/
theorem kpi_guard_spec (now : Int) (vst : VideoStatistics) (vsn : VideoSnippet)
    (cst : ChannelStatistics) (csn : ChannelSnippet)
    (osn : Option VideoSnippet) (ocn : Option ChannelSnippet) :
    calculateVideoKPIs now none = .ok (.invalid "无效的视频数据") ∧
    calculateVideoKPIs now (some ⟨none, osn⟩) = .ok (.invalid "无效的视频数据") ∧
    (∃ k, calculateVideoKPIs now (some ⟨some vst, some vsn⟩) = .ok (.kpis k)) ∧
    (∃ err, calculateVideoKPIs now (some ⟨some vst, none⟩) = .error err) ∧
    calculateChannelKPIs now none = .ok (.invalid "无效的频道数据") ∧
    calculateChannelKPIs now (some ⟨none, ocn⟩) = .ok (.invalid "无效的频道数据") ∧
    (∃ k, calculateChannelKPIs now (some ⟨some cst, some csn⟩) = .ok (.kpis k)) ∧
    (∃ err, calculateChannelKPIs now (some ⟨some cst, none⟩) = .error err) :=
  ⟨rfl, rfl, ⟨_, rfl⟩, ⟨_, rfl⟩, rfl, rfl, ⟨_, rfl⟩, ⟨_, rfl⟩⟩

/-- Helper: a comment survives the per-comment analysis exactly when its
text field is truthy. -/
theorem analyzeComment_isSome (c : SComment) :
    (analyzeComment c).isSome = truthyText c := by
  cases hc : c.text with
  | none => simp [analyzeComment, truthyText, hc]
  | some t =>
    by_cases ht : t = ""
    · simp [analyzeComment, truthyText, hc, ht]
    · simp [analyzeComment, truthyText, hc, ht]

/-- Helper: the analyzed-comment list is exactly as long as the list of
comments with truthy text. -/
theorem filterMap_analyzeComment_length (l : List SComment) :
    (l.filterMap analyzeComment).length = (l.filter truthyText).length := by
  induction l with
  | nil => rfl
  | cons c t ih =>
    rw [List.filterMap_cons, List.filter_cons]
    cases hc : analyzeComment c with
    | none =>
      have hfalse : truthyText c = false := by
        rw [← analyzeComment_isSome, hc]; rfl
      simp [hfalse, ih]
    | some a =>
      have htrue : truthyText c = true := by
        rw [← analyzeComment_isSome, hc]; rfl
      simp [htrue, ih]

/-- Helper: the three sentiment classes partition the analyzed list. -/
theorem tri_count (A : List AnalyzedComment) :
    (A.filter fun a => a.sentiment == Sentiment.positive).length +
    (A.filter fun a => a.sentiment == Sentiment.neutral).length +
    (A.filter fun a => a.sentiment == Sentiment.negative).length = A.length := by
  induction A with
  | nil => rfl
  | cons a t ih =>
    rw [List.filter_cons, List.filter_cons, List.filter_cons]
    cases h : a.sentiment <;>
      simp [h,
        show (Sentiment.positive == Sentiment.positive) = true from rfl,
        show (Sentiment.positive == Sentiment.neutral) = false from rfl,
        show (Sentiment.positive == Sentiment.negative) = false from rfl,
        show (Sentiment.neutral == Sentiment.positive) = false from rfl,
        show (Sentiment.neutral == Sentiment.neutral) = true from rfl,
        show (Sentiment.neutral == Sentiment.negative) = false from rfl,
        show (Sentiment.negative == Sentiment.positive) = false from rfl,
        show (Sentiment.negative == Sentiment.neutral) = false from rfl,
        show (Sentiment.negative == Sentiment.negative) = true from rfl] <;>
      omega

/-- Helper: closed form of `analyzeCommentSentiment` on a non-empty input
list, used to reason about its fields. -/
theorem analyzeCommentSentiment_eq (comments : List SComment)
    (hne : comments.length ≠ 0) :
    analyzeCommentSentiment comments =
      .ok
        { sentimentScore := round2
            ((((comments.filterMap analyzeComment).filter
                fun a => a.sentiment == Sentiment.positive).length : ℚ) /
              (comments.filterMap analyzeComment).length * 100 -
            (((comments.filterMap analyzeComment).filter
                fun a => a.sentiment == Sentiment.negative).length : ℚ) /
              (comments.filterMap analyzeComment).length * 100),
          sentimentDistribution :=
            { positive := round2
                ((((comments.filterMap analyzeComment).filter
                    fun a => a.sentiment == Sentiment.positive).length : ℚ) /
                  (comments.filterMap analyzeComment).length * 100),
              neutral := round2
                ((((comments.filterMap analyzeComment).filter
                    fun a => a.sentiment == Sentiment.neutral).length : ℚ) /
                  (comments.filterMap analyzeComment).length * 100),
              negative := round2
                ((((comments.filterMap analyzeComment).filter
                    fun a => a.sentiment == Sentiment.negative).length : ℚ) /
                  (comments.filterMap analyzeComment).length * 100) },
          commentCount := (comments.filterMap analyzeComment).length,
          positiveCount := ((comments.filterMap analyzeComment).filter
            fun a => a.sentiment == Sentiment.positive).length,
          neutralCount := ((comments.filterMap analyzeComment).filter
            fun a => a.sentiment == Sentiment.neutral).length,
          negativeCount := ((comments.filterMap analyzeComment).filter
            fun a => a.sentiment == Sentiment.negative).length,
          mostPositiveComments :=
            (sortByScoreDesc (comments.filterMap analyzeComment)).take 3,
          mostNegativeComments :=
            (sortByScoreAsc (comments.filterMap analyzeComment)).take 3,
          sentimentAssessment := getSentimentAssessment (round2
            ((((comments.filterMap analyzeComment).filter
                fun a => a.sentiment == Sentiment.positive).length : ℚ) /
              (comments.filterMap analyzeComment).length * 100 -
            (((comments.filterMap analyzeComment).filter
                fun a => a.sentiment == Sentiment.negative).length : ℚ) /
              (comments.filterMap analyzeComment).length * 100)) } := by
  unfold analyzeCommentSentiment
  rw [if_neg hne]

/-- C10 counterexample: a comment whose text field is present but empty
possesses a text field, yet `analyzeCommentSentiment` excludes it: the
returned commentCount is 0 while one input comment has a text field. -/
theorem commentCount_text_field_counterexample :
    (∃ d, analyzeCommentSentiment [⟨some ""⟩] = .ok d ∧ d.commentCount = 0) ∧
    (([⟨some ""⟩] : List SComment).filter fun c => c.text.isSome).length = 1 := by
  refine ⟨⟨_, analyzeCommentSentiment_eq [⟨some ""⟩] (by decide), rfl⟩, rfl⟩

/-- C10 amended: for every non-empty input list the returned commentCount
equals the number of input comments whose text field is truthy (present
and non-empty) — comments with an empty-string text field are also
excluded — and the three classification counts sum to that commentCount. -/
theorem sentiment_counts_spec (comments : List SComment)
    (h : comments.length ≠ 0) :
    ∃ d, analyzeCommentSentiment comments = .ok d ∧
      d.commentCount = (comments.filter truthyText).length ∧
      d.positiveCount + d.neutralCount + d.negativeCount = d.commentCount := by
  rw [analyzeCommentSentiment_eq comments h]
  exact ⟨_, rfl, filterMap_analyzeComment_length comments,
    tri_count (comments.filterMap analyzeComment)⟩

/-- Witness for `sentiment_counts_spec`. -/
theorem sentiment_counts_spec_witness :
    ∃ d, analyzeCommentSentiment [⟨some "a"⟩, ⟨none⟩] = .ok d ∧
      d.commentCount = (([⟨some "a"⟩, ⟨none⟩] : List SComment).filter truthyText).length ∧
      d.positiveCount + d.neutralCount + d.negativeCount = d.commentCount :=
  sentiment_counts_spec [⟨some "a"⟩, ⟨none⟩] (by decide)

/-- Helper: two-decimal rounding moves a value by at most 1/200. -/
theorem round2_close (q : ℚ) : |round2 q - q| ≤ 1/200 := by
  unfold round2
  have h := abs_sub_round (q * 100)
  have heq : ((round (q * 100) : ℤ) : ℚ) / 100 - q
      = -((q * 100 - ((round (q * 100) : ℤ) : ℚ)) / 100) := by ring
  rw [heq, abs_neg, abs_div]
  rw [show |(100 : ℚ)| = 100 by norm_num]
  linarith

/-- C8 counterexample: a non-empty comment list in which no comment has a
truthy text field drives the percentage divisions to 0/0 (NaN in
JavaScript, 0 in this model); the distribution sums to 0, not to 100
within rounding, so the claim fails for this non-empty list. -/
theorem distribution_nan_counterexample :
    (∃ d, analyzeCommentSentiment [⟨none⟩] = .ok d ∧
      d.sentimentDistribution.positive + d.sentimentDistribution.neutral +
        d.sentimentDistribution.negative = 0) ∧
    ¬ (|(0 : ℚ) - 100| ≤ 3/200) := by
  constructor
  · refine ⟨_, analyzeCommentSentiment_eq [⟨none⟩] (by decide), ?_⟩
    have hfm : List.filterMap analyzeComment [(⟨none⟩ : SComment)] = [] := rfl
    dsimp only
    rw [hfm]
    norm_num [round2]
  · rw [show (0 : ℚ) - 100 = -100 by norm_num, abs_neg,
      abs_of_nonneg (by norm_num : (0 : ℚ) ≤ 100)]
    norm_num

/-- C8 amended: for every comment list containing at least one comment
with truthy text, the three distribution percentages sum to 100 up to the
two-decimal rounding of each component (within 3/200). -/
theorem distribution_sums_spec (comments : List SComment)
    (h : 0 < (comments.filterMap analyzeComment).length) :
    ∃ d, analyzeCommentSentiment comments = .ok d ∧
      |d.sentimentDistribution.positive + d.sentimentDistribution.neutral +
        d.sentimentDistribution.negative - 100| ≤ 3/200 := by
  have hne : comments.length ≠ 0 := by
    have hle := List.length_filterMap_le analyzeComment comments
    omega
  refine ⟨_, analyzeCommentSentiment_eq comments hne, ?_⟩
  dsimp only
  set A := comments.filterMap analyzeComment with hA
  set p := (A.filter fun a => a.sentiment == Sentiment.positive).length with hp
  set u := (A.filter fun a => a.sentiment == Sentiment.neutral).length with hu
  set n := (A.filter fun a => a.sentiment == Sentiment.negative).length with hn
  have hsum : p + u + n = A.length := tri_count A
  have hNpos : (0 : ℚ) < (A.length : ℚ) := by exact_mod_cast h
  have hA0 : (A.length : ℚ) ≠ 0 := ne_of_gt hNpos
  have hcast : (p : ℚ) + u + n = (A.length : ℚ) := by exact_mod_cast hsum
  have hx : (p : ℚ) / A.length * 100 + (u : ℚ) / A.length * 100 +
      (n : ℚ) / A.length * 100 = 100 := by
    field_simp
    linarith
  have h1 := round2_close ((p : ℚ) / A.length * 100)
  have h2 := round2_close ((u : ℚ) / A.length * 100)
  have h3 := round2_close ((n : ℚ) / A.length * 100)
  rw [abs_le] at h1 h2 h3 ⊢
  constructor <;> linarith

/-- Witness for `distribution_sums_spec`. -/
theorem distribution_sums_spec_witness :
    ∃ d, analyzeCommentSentiment [⟨some "a"⟩] = .ok d ∧
      |d.sentimentDistribution.positive + d.sentimentDistribution.neutral +
        d.sentimentDistribution.negative - 100| ≤ 3/200 :=
  distribution_sums_spec [⟨some "a"⟩] (by decide)
